import Mathlib

/-!
Verification of the frame compositing / duration-synchronization / audio-mixing
pipeline of the Shorts batch video editor.

The Python sources are shallowly embedded: frames, templates, masks and audio
samples are type parameters; the external pixel routines
(`process_frame_with_green_screen`, `create_green_screen_mask`, text rendering,
moviepy clip operations) are abstracted as function parameters with the same
call shapes as in the source, while the control flow (loops, index arithmetic,
branching, exception recovery) is translated directly from the code.
-/

namespace Shorts

/-! ## Duration synchronization (narasi_processing.py, lines 134-189 and 205-266)

The synchronization loop pulls frames from an OpenCV capture; when a read
fails it seeks back to frame 0 and reads again (loop), and if even that read
fails it breaks out.  `readLoop` is one iteration of that read-with-restart
step over a finite frame list, returning the frame and the next position. -/

/-- One read from the looping capture: try position `pos`; on failure restart
from position 0 (`cap.set(CAP_PROP_POS_FRAMES, 0)` followed by a read); if the
restarted read also fails, report `none` (the loop then breaks). -/
def readLoop {α : Type} (source : List α) (pos : Nat) : Option (α × Nat) :=
  match source[pos]? with
  | some f => some (f, pos + 1)
  | none =>
    match source[0]? with
    | some f => some (f, 1)
    | none => none

/-- The shared `while frames_written < target_frames` loop skeleton of both
template-processing functions: `emit written frame` is the loop body applied
to the frame pulled on the iteration with counter `written`. -/
def pullLoopAux {α β : Type} (emit : Nat → α → β) (source : List α) :
    Nat → Nat → Nat → List β
  | 0, _, _ => []
  | n + 1, pos, written =>
    match readLoop source pos with
    | none => []
    | some (f, pos') => emit written f :: pullLoopAux emit source n pos' (written + 1)

/-- `target_frames = int(target_duration * fps)` (narasi_processing.py line 143
and line 212): Python `int` truncates, which for the nonnegative durations and
rates in play is the floor. -/
def target_frames (target_duration : ℚ) (fps : ℕ) : ℕ :=
  (⌊target_duration * (fps : ℚ)⌋).toNat

/-- Embeds `process_concatenated_video_with_template` (narasi_processing.py
lines 112-189), static-template branch: the frame loop composites each pulled
frame with the fixed template and mask (`process_frame_with_green_screen`,
external module, abstracted as `compose`), then applies the optional text
overlay and size normalization (abstracted as `overlay`).  The function
returns `True` unconditionally after the loop (line 189). -/
def process_concatenated_video_with_template {α τ μ β : Type}
    (compose : τ → α → μ → β) (overlay : β → β)
    (template : τ) (template_mask : μ) (source : List α)
    (target_duration : ℚ) (fps : ℕ) : List β × Bool :=
  (pullLoopAux (fun _ f => overlay (compose template f template_mask))
      source (target_frames target_duration fps) 0 0, true)

/-- Embeds `process_concatenated_video_with_gif_template` (narasi_processing.py
lines 191-266): each iteration selects GIF frame `frames_written mod
gif_frame_count`, resizes it (`resizeT`), builds a fresh mask from it
(`create_green_screen_mask`, abstracted as `maskOf`), and composites the pulled
source frame against that template frame and mask. -/
def process_concatenated_video_with_gif_template {α τ μ β : Type}
    (resizeT : τ → τ) (maskOf : τ → μ) (compose : τ → α → μ → β) (overlay : β → β)
    (gif_frames : List τ) (dflt : τ) (source : List α)
    (target_duration : ℚ) (fps : ℕ) : List β × Bool :=
  (pullLoopAux
      (fun written f =>
        let g := resizeT (gif_frames.getD (written % gif_frames.length) dflt)
        overlay (compose g f (maskOf g)))
      source (target_frames target_duration fps) 0 0, true)

lemma pullLoopAux_nil {α β : Type} (emit : Nat → α → β) (n pos w : Nat) :
    pullLoopAux emit [] n pos w = [] := by
  cases n <;> simp [pullLoopAux, readLoop]

/-- Loop invariant for the read-with-restart pull loop: starting at a position
`pos ≤ length` with counter `w`, the loop emits exactly `n` frames and the
`i`-th emitted value is the body applied to counter `w + i` and to source frame
`(pos + i) mod length`. -/
lemma pullLoopAux_spec {α β : Type} (emit : Nat → α → β) (source : List α)
    (hne : source ≠ []) :
    ∀ (n pos w : Nat), pos ≤ source.length →
      (pullLoopAux emit source n pos w).length = n ∧
      ∀ i < n, (pullLoopAux emit source n pos w)[i]? =
        (source[(pos + i) % source.length]?).map (fun f => emit (w + i) f) := by
  intro n
  induction n with
  | zero =>
    intro pos w _
    exact ⟨rfl, fun i hi => absurd hi (Nat.not_lt_zero i)⟩
  | succ n ih =>
    intro pos w hpos
    have hlen : 0 < source.length := List.length_pos.mpr hne
    by_cases hlt : pos < source.length
    · obtain ⟨f, hf⟩ : ∃ f, source[pos]? = some f := by
        exact ⟨_, List.getElem?_eq_getElem hlt⟩
      have hread : readLoop source pos = some (f, pos + 1) := by
        simp [readLoop, hf]
      have hstep : pullLoopAux emit source (n + 1) pos w =
          emit w f :: pullLoopAux emit source n (pos + 1) (w + 1) := by
        rw [pullLoopAux, hread]
      obtain ⟨ihlen, ihget⟩ := ih (pos + 1) (w + 1) hlt
      refine ⟨by rw [hstep]; simp [ihlen], ?_⟩
      intro i hi
      rw [hstep]
      cases i with
      | zero =>
        simp [Nat.mod_eq_of_lt hlt, hf]
      | succ j =>
        have hji : j < n := Nat.lt_of_succ_lt_succ hi
        have h1 : pos + (j + 1) = pos + 1 + j := by omega
        have h2 : w + (j + 1) = w + 1 + j := by omega
        simpa [h1, h2] using ihget j hji
    · have hpe : pos = source.length := le_antisymm hpos (le_of_not_lt hlt)
      have hnone : source[pos]? = none := by
        exact List.getElem?_eq_none (by omega)
      obtain ⟨f, hf⟩ : ∃ f, source[0]? = some f := by
        exact ⟨_, List.getElem?_eq_getElem hlen⟩
      have hread : readLoop source pos = some (f, 1) := by
        simp [readLoop, hnone, hf]
      have hstep : pullLoopAux emit source (n + 1) pos w =
          emit w f :: pullLoopAux emit source n 1 (w + 1) := by
        rw [pullLoopAux, hread]
      obtain ⟨ihlen, ihget⟩ := ih 1 (w + 1) hlen
      refine ⟨by rw [hstep]; simp [ihlen], ?_⟩
      intro i hi
      rw [hstep]
      cases i with
      | zero =>
        simp [hpe, Nat.mod_self, hf]
      | succ j =>
        have hji : j < n := Nat.lt_of_succ_lt_succ hi
        have h1 : (pos + (j + 1)) % source.length = (1 + j) % source.length := by
          rw [hpe]
          have : source.length + (j + 1) = (1 + j) + source.length := by omega
          rw [this, Nat.add_mod_right]
        have h2 : w + (j + 1) = w + 1 + j := by omega
        simpa [h1, h2] using ihget j hji

/-- The synchronization loop of `process_concatenated_video_with_template`
emits exactly `target_frames` frames whenever the source is nonempty. -/
lemma process_concatenated_video_with_template_length {α τ μ β : Type}
    (compose : τ → α → μ → β) (overlay : β → β) (template : τ) (mask : μ)
    (source : List α) (hne : source ≠ []) (T : ℚ) (fps : ℕ) :
    (process_concatenated_video_with_template compose overlay template mask
      source T fps).1.length = target_frames T fps :=
  (pullLoopAux_spec _ source hne (target_frames T fps) 0 0 (Nat.zero_le _)).1

/-- C1 (amended): for a nonempty frame source with native frame count `N` and
frame rate `fps`, and target duration `T` derived from the audio, the
duration-synchronization loop emits exactly `int(T * fps) = ⌊T * fps⌋` frames
(truncation, not `round(T * fps)`); the count is computed once up front by
`target_frames`; and the `i`-th emitted frame is the composite of source frame
`i mod N`, so the first `N` emitted frames are the source in order and the
pattern repeats from index 0 thereafter. -/
theorem duration_sync_emits_floor_target {α τ μ β : Type}
    (compose : τ → α → μ → β) (overlay : β → β) (template : τ) (mask : μ)
    (source : List α) (hne : source ≠ []) (T : ℚ) (fps : ℕ) :
    ((process_concatenated_video_with_template compose overlay template mask
        source T fps).1.length = target_frames T fps) ∧
    (∀ i < target_frames T fps,
      (process_concatenated_video_with_template compose overlay template mask
        source T fps).1[i]? =
        (source[i % source.length]?).map (fun f => overlay (compose template f mask))) ∧
    target_frames T fps = (⌊T * (fps : ℚ)⌋).toNat := by
  obtain ⟨h1, h2⟩ := pullLoopAux_spec
    (fun _ f => overlay (compose template f mask)) source hne
    (target_frames T fps) 0 0 (Nat.zero_le _)
  refine ⟨h1, ?_, rfl⟩
  intro i hi
  simpa using h2 i hi

/-- Witness for C1: a two-frame source at 3 fps with a 1-second target emits
`⌊3⌋ = 3` frames and frame 2 loops back to source frame 0. -/
theorem duration_sync_emits_floor_target_witness :
    ([10, 20] : List ℕ) ≠ [] ∧
    (process_concatenated_video_with_template (fun (_ : ℕ) (f : ℕ) (_ : ℕ) => f) id 0 0
        ([10, 20] : List ℕ) 1 3).1.length = target_frames 1 3 ∧
    (process_concatenated_video_with_template (fun (_ : ℕ) (f : ℕ) (_ : ℕ) => f) id 0 0
        ([10, 20] : List ℕ) 1 3).1[2]? = some 10 := by
  have h := duration_sync_emits_floor_target (fun (_ : ℕ) (f : ℕ) (_ : ℕ) => f) id 0 0
      ([10, 20] : List ℕ) (by decide) 1 3
  have ht : target_frames 1 3 = 3 := by simp [target_frames]
  refine ⟨by decide, h.1, ?_⟩
  have h2 := h.2.1 2 (by rw [ht]; norm_num)
  simpa using h2

/-- C1 counterexample: with a one-frame source, `fps = 30`, and target duration
`2.03` seconds, the loop emits `int(60.9) = 60` frames, while the claim's
`round(2.03 * 30) = 61`: the target count is truncated, not rounded. -/
theorem duration_sync_round_counterexample :
    (process_concatenated_video_with_template (fun (_ : ℕ) (f : ℕ) (_ : ℕ) => f) id 0 0
        ([5] : List ℕ) (203 / 100) 30).1.length = 60 ∧
    round ((203 / 100 : ℚ) * 30) = 61 ∧ (60 : ℕ) ≠ 61 := by
  refine ⟨?_, ?_, by decide⟩
  · rw [process_concatenated_video_with_template_length (fun (_ : ℕ) (f : ℕ) (_ : ℕ) => f)
      id 0 0 ([5] : List ℕ) (by decide) (203 / 100) 30]
    have hfl : ⌊(203 / 100 : ℚ) * ((30 : ℕ) : ℚ)⌋ = 60 := by
      rw [Int.floor_eq_iff]
      constructor <;> norm_num
    rw [target_frames, hfl]
    rfl
  · have : round ((203 / 100 : ℚ) * 30) = ⌊(203 / 100 : ℚ) * 30 + 1 / 2⌋ := round_eq _
    rw [this, Int.floor_eq_iff]
    constructor <;> norm_num

/-- C2 (amended): a frame source that yields zero frames on the very first
read makes both the read and the restarted read fail, so the loop breaks
immediately: the function emits zero frames and still returns success
(`True`).  No error is raised (the code defines no `EmptySourceError`), so a
fortiori the batch is not aborted. -/
theorem empty_source_returns_success {α τ μ β : Type}
    (compose : τ → α → μ → β) (overlay : β → β) (template : τ) (mask : μ)
    (T : ℚ) (fps : ℕ) :
    process_concatenated_video_with_template compose overlay template mask
      ([] : List α) T fps = ([], true) := by
  unfold process_concatenated_video_with_template
  rw [pullLoopAux_nil]

/-- C2 counterexample: on a source yielding zero frames with a 2-second target
at 30 fps, the embedded function completes normally with success (`true`) and
zero emitted frames — the duration-synchronization step does not fail at all,
contradicting the claimed `EmptySourceError` failure. -/
theorem empty_source_no_failure_counterexample :
    process_concatenated_video_with_template (fun (_ : ℕ) (f : ℕ) (_ : ℕ) => f) id 0 0
      ([] : List ℕ) 2 30 = ([], true) := by
  unfold process_concatenated_video_with_template
  rw [pullLoopAux_nil]

/-- C6: in the animated-template loop, output frame `i` is composited from GIF
template frame `i mod K` (the template index is `frames_written mod
gif_frame_count`, advancing exactly once per output frame, independently of the
source's own position, which is `i mod N`), together with a mask freshly built
from that resized template frame. -/
theorem gif_template_advances_per_output_frame {α τ μ β : Type}
    (resizeT : τ → τ) (maskOf : τ → μ) (compose : τ → α → μ → β) (overlay : β → β)
    (gif_frames : List τ) (dflt : τ) (source : List α)
    (hs : source ≠ []) (T : ℚ) (fps : ℕ) :
    ((process_concatenated_video_with_gif_template resizeT maskOf compose overlay
        gif_frames dflt source T fps).1.length = target_frames T fps) ∧
    ∀ i < target_frames T fps,
      (process_concatenated_video_with_gif_template resizeT maskOf compose overlay
        gif_frames dflt source T fps).1[i]? =
        (source[i % source.length]?).map (fun f =>
          overlay (compose (resizeT (gif_frames.getD (i % gif_frames.length) dflt)) f
            (maskOf (resizeT (gif_frames.getD (i % gif_frames.length) dflt))))) := by
  obtain ⟨h1, h2⟩ := pullLoopAux_spec
    (fun written f =>
      let g := resizeT (gif_frames.getD (written % gif_frames.length) dflt)
      overlay (compose g f (maskOf g)))
    source hs (target_frames T fps) 0 0 (Nat.zero_le _)
  refine ⟨h1, ?_⟩
  intro i hi
  simpa [process_concatenated_video_with_gif_template] using h2 i hi

/-- Witness for C6: a two-frame GIF template over a three-frame source at
5 fps and a 1-second target; output frame 3 uses GIF frame `3 mod 2 = 1`
(value 200), its fresh mask (201), and source frame `3 mod 3 = 0` (value 1). -/
theorem gif_template_advances_witness :
    ([1, 2, 3] : List ℕ) ≠ [] ∧
    (process_concatenated_video_with_gif_template id (fun t => t + 1)
        (fun g f m => (g, f, m)) id ([100, 200] : List ℕ) 0
        ([1, 2, 3] : List ℕ) 1 5).1[3]? = some (200, 1, 201) := by
  have h := gif_template_advances_per_output_frame id (fun t => t + 1)
      (fun g f m => (g, f, m)) id ([100, 200] : List ℕ) 0
      ([1, 2, 3] : List ℕ) (by decide) 1 5
  have ht : target_frames 1 5 = 5 := by simp [target_frames]
  refine ⟨by decide, ?_⟩
  have h2 := h.2 3 (by rw [ht]; norm_num)
  simpa using h2

/-! ## Audio mixing and duration matching (narasi_processing.py lines 268-336,
video_processor.py lines 307-371 and 820-874)

Audio tracks are embedded as lists of samples; the target duration is a sample
count.  moviepy's `subclip(0, t)` keeps the first `t` samples, and
`clip.loop(duration=t)` is the cyclic extension of the track cut at `t`. -/

/-- moviepy `clip.loop(duration=t)`: cyclic extension of the track, cut at
`t` samples. -/
def loopTo {σ : Type} (track : List σ) (dflt : σ) (t : Nat) : List σ :=
  (List.range t).map (fun i => track.getD (i % track.length) dflt)

/-- Embeds the duration-matching branch of `add_audio_to_narasi_video`
(narasi_processing.py lines 287-295): a track longer than the target is cut
with `subclip(0, target)`, a shorter one is looped with
`loop(duration=target)`, an equal one passes through unchanged. -/
def narasi_align_audio {σ : Type} (track : List σ) (dflt : σ) (t : Nat) : List σ :=
  if t < track.length then track.take t
  else if track.length < t then loopTo track dflt t
  else track

/-- Embeds the background-music duration matching of
`handle_gif_audio_processing` (video_processor.py lines 846-849): loop when
shorter than the video, otherwise `subclip(0, video_duration)`. -/
def gif_align_audio {σ : Type} (track : List σ) (dflt : σ) (t : Nat) : List σ :=
  if track.length < t then loopTo track dflt t else track.take t

/-- C5: for every nonempty audio track and target duration (in samples), both
alignment routines output exactly the target number of samples; sample `i` of
the output is track sample `i mod n`, so a longer track is truncated keeping
its start, a shorter track is whole copies plus a partial remainder truncated
to the target, and an equal track passes through — exact equality in this
sample-level model, hence within one sample in continuous time. -/
theorem audio_alignment_matches_target {σ : Type} (track : List σ) (dflt : σ)
    (hne : track ≠ []) (t : Nat) :
    (narasi_align_audio track dflt t).length = t ∧
    (∀ i < t, (narasi_align_audio track dflt t)[i]? = track[i % track.length]?) ∧
    (gif_align_audio track dflt t).length = t ∧
    (∀ i < t, (gif_align_audio track dflt t)[i]? = track[i % track.length]?) := by
  have hlen : 0 < track.length := List.length_pos.mpr hne
  have hloop_len : (loopTo track dflt t).length = t := by
    simp [loopTo]
  have hloop_get : ∀ i < t, (loopTo track dflt t)[i]? = track[i % track.length]? := by
    intro i hi
    have hm : i % track.length < track.length := Nat.mod_lt _ hlen
    rw [loopTo, List.getElem?_map, List.getElem?_range hi]
    rw [Option.map_some', List.getD_eq_getElem _ _ hm, List.getElem?_eq_getElem hm]
  have htake_get : ∀ i < t, t ≤ track.length →
      (track.take t)[i]? = track[i % track.length]? := by
    intro i hi hle
    have hil : i < track.length := lt_of_lt_of_le hi hle
    rw [Nat.mod_eq_of_lt hil]
    exact List.getElem?_take_of_lt hi
  refine ⟨?_, ?_, ?_, ?_⟩
  · unfold narasi_align_audio
    split_ifs with h1 h2
    · simp [List.length_take]
      omega
    · exact hloop_len
    · omega
  · intro i hi
    unfold narasi_align_audio
    split_ifs with h1 h2
    · exact htake_get i hi (le_of_lt h1)
    · exact hloop_get i hi
    · rw [Nat.mod_eq_of_lt (by omega)]
  · unfold gif_align_audio
    split_ifs with h1
    · exact hloop_len
    · simp [List.length_take]
      omega
  · intro i hi
    unfold gif_align_audio
    split_ifs with h1
    · exact hloop_get i hi
    · exact htake_get i hi (by omega)

/-- Witness for C5: the three-sample track `[1, 2, 3]` aligned to 5 samples
(shorter than target: looped) and to 2 samples (longer than target:
truncated); output lengths match the targets and sample 4 of the looped
output is track sample `4 mod 3 = 1`. -/
theorem audio_alignment_matches_target_witness :
    ([1, 2, 3] : List ℕ) ≠ [] ∧
    (narasi_align_audio ([1, 2, 3] : List ℕ) 0 5).length = 5 ∧
    (narasi_align_audio ([1, 2, 3] : List ℕ) 0 5)[4]? = some 2 ∧
    (gif_align_audio ([1, 2, 3] : List ℕ) 0 2).length = 2 := by
  have h5 := audio_alignment_matches_target ([1, 2, 3] : List ℕ) 0 (by decide) 5
  have h2 := audio_alignment_matches_target ([1, 2, 3] : List ℕ) 0 (by decide) 2
  refine ⟨by decide, h5.1, ?_, h2.2.2.1⟩
  have := h5.2.1 4 (by norm_num)
  simpa using this

/-! ## Audio failure recovery (video_processor.py lines 307-371,
narasi_processing.py lines 268-336, 399-411) -/

/-- Result of the per-file audio stage: which artifact ends up at the output
path. -/
inductive AudioOutcome : Type
  | dualMixed
  | backgroundOnly
  | originalAudio
  | copiedWithoutAudio
  | noOutput
  deriving DecidableEq

/-- The audio-related GUI settings read by `handle_audio_processing`:
`dual_audio_enabled`, `enabled` (background-music-only mode) and whether a
background folder path is set. -/
structure AudioSettings : Type where
  dual_audio_enabled : Bool
  enabled : Bool
  has_folder_path : Bool

/-- Embeds `handle_audio_processing` (video_processor.py lines 307-371).  The
external mixer calls are inputs: `.error ()` models the call raising, `.ok b`
models a normal return with success flag `b` (`add_dual_audio_to_video`,
`add_background_music_to_video`); `orig_call` models `add_audio_to_video` and
`copy_call` the last-resort `shutil.copy2`.  The whole body runs under
`try/except`, and the except clause's own copy attempt is itself wrapped, so
every path produces an outcome and the function always returns normally. -/
def handle_audio_processing (s : AudioSettings) (background_found : Bool)
    (dual_call : Except Unit Bool) (bg_call : Except Unit Bool)
    (orig_call : Except Unit Unit) (copy_call : Except Unit Unit) : AudioOutcome :=
  let fallback_copy : AudioOutcome :=
    match copy_call with
    | .ok _ => .copiedWithoutAudio
    | .error _ => .noOutput
  let try_original : AudioOutcome :=
    match orig_call with
    | .ok _ => .originalAudio
    | .error _ => fallback_copy
  if s.dual_audio_enabled then
    if s.has_folder_path && background_found then
      match dual_call with
      | .ok true => .dualMixed
      | .ok false => try_original
      | .error _ => fallback_copy
    else try_original
  else if s.enabled && s.has_folder_path then
    if background_found then
      match bg_call with
      | .ok true => .backgroundOnly
      | .ok false => try_original
      | .error _ => fallback_copy
    else try_original
  else try_original

/-- `process_single_video_greenscreen` returns `True` unconditionally after
`handle_audio_processing` completes (video_processor.py line 210), whatever
the audio outcome was; `process_single_video_blur` does the same (line 269). -/
def process_single_video_greenscreen_result (_outcome : AudioOutcome) : Bool :=
  true

/-- Embeds `add_audio_to_narasi_video` (narasi_processing.py lines 268-336):
the whole body is one try/except; `mix_result` is `some out` when the moviepy
mix-and-write succeeds and `none` when any step raises, in which case the
except clause copies the silent video to the output path and the function
returns `False`. -/
def add_audio_to_narasi_video {ω : Type} (mix_result : Option ω) (silent_video : ω) :
    ω × Bool :=
  match mix_result with
  | some out => (out, true)
  | none => (silent_video, false)

/-- Step 3 of `process_narasi_mode` (narasi_processing.py lines 399-411): the
job's reported success is exactly the flag returned by
`add_audio_to_narasi_video`. -/
def process_narasi_mode_step3 {ω : Type} (mix_result : Option ω) (silent_video : ω) :
    Bool :=
  (add_audio_to_narasi_video mix_result silent_video).2

/-- C4 counterexample: in narasi mode a failing audio mix does produce a
fallback output (the silent video, here 7, is copied to the output path), yet
`add_audio_to_narasi_video` returns `False` and `process_narasi_mode` reports
the whole job failed — contradicting "this fallback never causes the job
itself to be reported as failed". -/
theorem narasi_audio_failure_fails_job_counterexample :
    add_audio_to_narasi_video (none : Option ℕ) 7 = (7, false) ∧
    process_narasi_mode_step3 (none : Option ℕ) 7 = false :=
  ⟨rfl, rfl⟩

/-- C4 (amended): in the per-file pipeline every audio-mixing failure is
recovered — a dual mix that fails falls back to the original-audio mux, a
raising call falls back to a plain copy without audio, and even a failing
copy is swallowed — and the per-file job still reports success; in narasi
mode, however, the fallback copies the video without audio but the job is
reported failed. -/
theorem audio_failure_fallback_policy :
    (∀ (s : AudioSettings) (bf : Bool) (dc bc : Except Unit Bool)
        (oc cc : Except Unit Unit),
      process_single_video_greenscreen_result
        (handle_audio_processing s bf dc bc oc cc) = true) ∧
    (∀ (e : Bool) (bc : Except Unit Bool) (cc : Except Unit Unit),
      handle_audio_processing ⟨true, e, true⟩ true (.ok false) bc (.ok ()) cc
        = .originalAudio) ∧
    (∀ (bc : Except Unit Bool) (oc : Except Unit Unit),
      handle_audio_processing ⟨true, true, true⟩ true (.error ()) bc oc (.ok ())
        = .copiedWithoutAudio) ∧
    (∀ (v : ℕ), add_audio_to_narasi_video (some v) 0 = (v, true) ∧
      add_audio_to_narasi_video (none : Option ℕ) v = (v, false)) := by
  refine ⟨fun _ _ _ _ _ _ => rfl, fun e bc cc => ?_, fun bc oc => ?_,
    fun v => ⟨rfl, rfl⟩⟩
  · simp [handle_audio_processing]
  · simp [handle_audio_processing]

/-! ## Mask-emptiness check ordering (video_processor.py lines 471-589,
narasi_processing.py lines 338-427)

The batch pipelines are embedded as event traces so that the position of the
one mask-emptiness check relative to frame compositing is explicit. -/

/-- Events of a batch run: building the template mask, checking its true-pixel
sum, aborting the batch on an empty mask, reading/writing a raw frame during
narasi concatenation, and compositing one output frame. -/
inductive BatchEv : Type
  | buildMask
  | checkMaskEmpty
  | abortBatch
  | concatFrame (i : Nat)
  | compositeFrame (i : Nat)
  deriving DecidableEq

def isComposite : BatchEv → Bool
  | .compositeFrame _ => true
  | _ => false

/-- Trace of the greenscreen branch of `process_videos_bulk`
(video_processor.py lines 471-589): the template mask is built once
(lines 475-477) and its true-pixel sum checked once (lines 479-481) before
the per-file loop; a zero sum aborts the batch with an error status before
any file is processed, otherwise file `j` composites its `job_frames[j]`
frames. -/
def process_videos_bulk_trace (mask_true_count : Nat) (job_frames : List Nat) :
    List BatchEv :=
  [BatchEv.buildMask, BatchEv.checkMaskEmpty] ++
    (if mask_true_count = 0 then [BatchEv.abortBatch]
     else (List.range job_frames.length).flatMap
        (fun j => (List.range (job_frames.getD j 0)).map
          (fun _ => BatchEv.compositeFrame j)))

/-- Trace of `process_narasi_mode` (narasi_processing.py lines 338-427):
step 1 concatenates the clips, reading and re-writing `concat_frames` raw
frames (lines 364-367); then the template mask is built (lines 372-386) and
its sum checked (lines 388-389), raising before any compositing when it is
zero; then step 2 composites `target` output frames. -/
def process_narasi_mode_trace (concat_frames mask_true_count target : Nat) :
    List BatchEv :=
  (List.range concat_frames).map (fun i => BatchEv.concatFrame i) ++
    [BatchEv.buildMask, BatchEv.checkMaskEmpty] ++
    (if mask_true_count = 0 then [BatchEv.abortBatch]
     else (List.range target).map (fun i => BatchEv.compositeFrame i))

/-- C3: when the built mask has true-pixel count zero, both batch pipelines
abort before compositing a single frame; and in every run the mask-emptiness
check occurs exactly once per batch, with no compositing event before it
(every event preceding the check is a mask build or, in narasi mode, a raw
concatenation read — never a composite). -/
theorem mask_empty_checked_once_before_compositing
    (job_frames : List Nat) (concat_frames target mask_true_count : Nat) :
    ((process_videos_bulk_trace 0 job_frames).countP isComposite = 0 ∧
      BatchEv.abortBatch ∈ process_videos_bulk_trace 0 job_frames) ∧
    ((process_narasi_mode_trace concat_frames 0 target).countP isComposite = 0 ∧
      BatchEv.abortBatch ∈ process_narasi_mode_trace concat_frames 0 target) ∧
    (∃ pre post, process_videos_bulk_trace mask_true_count job_frames =
        pre ++ BatchEv.checkMaskEmpty :: post ∧
      (∀ e ∈ pre, isComposite e = false) ∧
      BatchEv.checkMaskEmpty ∉ pre ∧ BatchEv.checkMaskEmpty ∉ post) ∧
    (∃ pre post, process_narasi_mode_trace concat_frames mask_true_count target =
        pre ++ BatchEv.checkMaskEmpty :: post ∧
      (∀ e ∈ pre, isComposite e = false) ∧
      BatchEv.checkMaskEmpty ∉ pre ∧ BatchEv.checkMaskEmpty ∉ post) := by
  refine ⟨⟨?_, ?_⟩, ⟨?_, ?_⟩, ?_, ?_⟩
  · simp [process_videos_bulk_trace, isComposite]
  · simp [process_videos_bulk_trace]
  · simp [process_narasi_mode_trace, isComposite, List.countP_append,
      List.countP_map]
  · simp [process_narasi_mode_trace]
  · refine ⟨[BatchEv.buildMask], _, rfl, ?_, ?_, ?_⟩
    · intro e he
      simp at he
      subst he
      rfl
    · simp
    · by_cases h : mask_true_count = 0 <;> simp [h]
  · refine ⟨(List.range concat_frames).map (fun i => BatchEv.concatFrame i) ++
        [BatchEv.buildMask],
      (if mask_true_count = 0 then [BatchEv.abortBatch]
       else (List.range target).map (fun i => BatchEv.compositeFrame i)),
      ?_, ?_, ?_, ?_⟩
    · simp [process_narasi_mode_trace]
    · intro e he
      rcases List.mem_append.mp he with h | h
      · obtain ⟨i, -, rfl⟩ := List.mem_map.mp h
        rfl
      · simp at h
        subst h
        rfl
    · simp
    · by_cases h : mask_true_count = 0 <;> simp [h]

/-! ## Blur-preview inset geometry (gui_components.py lines 1164-1207)

The pixel arithmetic is over exact rationals with `Int.floor` standing for
Python `int()` on the nonnegative quantities involved. -/

structure BlurGeom : Type where
  new_width : ℤ
  new_height : ℤ
  x_offset : ℤ
  y_offset : ℤ

/-- `int(h * crop_percent / 100)` (gui_components.py lines 1173-1174). -/
def blur_crop_px (h : ℕ) (c : ℚ) : ℤ :=
  ⌊(h : ℚ) * c / 100⌋

/-- Inset dimensions (gui_components.py lines 1179-1190): the cropped frame
keeps full width `w` and height `h - crop_top_px - crop_bottom_px`; if its
aspect ratio exceeds 9/16 the height is fixed at `int(285 * 0.6) = 171` and
the width scales with the ratio, otherwise the width is fixed at
`int(160 * 0.7) = 112` and the height scales inversely. -/
def blur_new_dims (w h : ℕ) (ct cb : ℚ) : ℤ × ℤ :=
  let cropped_h : ℤ := (h : ℤ) - blur_crop_px h ct - blur_crop_px h cb
  let current_ratio : ℚ := (w : ℚ) / (cropped_h : ℚ)
  if 9 / 16 < current_ratio then
    let nh : ℤ := ⌊(285 : ℚ) * (6 / 10)⌋
    (⌊(nh : ℚ) * current_ratio⌋, nh)
  else
    let nw : ℤ := ⌊(160 : ℚ) * (7 / 10)⌋
    (nw, ⌊(nw : ℚ) / current_ratio⌋)

/-- Offset placement (gui_components.py lines 1193-1203):
`offset = int(percent/100 * (canvas - dim))` when the placement range is
positive, else 0, then clamped with `max(0, min(offset, canvas - dim))`. -/
def blur_offset (pct : ℚ) (canvas dim : ℤ) : ℤ :=
  let m : ℤ := canvas - dim
  let o : ℤ := if 0 < m then ⌊pct / 100 * (m : ℚ)⌋ else 0
  max 0 (min o m)

/-- The inset rectangle computed by `_update_blur_preview_from_path` for a
`w × h` source frame: dimensions and the clamped paste offsets on the
160 × 285 preview canvas. -/
def blur_preview_geometry (w h : ℕ) (ct cb xp yp : ℚ) : BlurGeom :=
  let dims := blur_new_dims w h ct cb
  ⟨dims.1, dims.2, blur_offset xp 160 dims.1, blur_offset yp 285 dims.2⟩

lemma blur_offset_nonneg (pct : ℚ) (canvas dim : ℤ) :
    0 ≤ blur_offset pct canvas dim :=
  le_max_left 0 _

lemma blur_offset_le (pct : ℚ) (canvas dim : ℤ) (h : dim ≤ canvas) :
    blur_offset pct canvas dim + dim ≤ canvas := by
  have hm : (0 : ℤ) ≤ canvas - dim := by omega
  have : blur_offset pct canvas dim ≤ canvas - dim := by
    unfold blur_offset
    exact max_le hm (min_le_right _ _)
  omega

lemma blur_offset_no_clamp (pct : ℚ) (canvas dim : ℤ)
    (h0 : 0 ≤ pct) (h100 : pct ≤ 100) (hm : 0 < canvas - dim) :
    blur_offset pct canvas dim = ⌊pct / 100 * ((canvas - dim : ℤ) : ℚ)⌋ := by
  have hmq : (0 : ℚ) ≤ ((canvas - dim : ℤ) : ℚ) := by exact_mod_cast le_of_lt hm
  have hons : (0 : ℤ) ≤ ⌊pct / 100 * ((canvas - dim : ℤ) : ℚ)⌋ := by
    apply Int.le_floor.mpr
    have : (0 : ℚ) ≤ pct / 100 * ((canvas - dim : ℤ) : ℚ) :=
      mul_nonneg (by positivity) hmq
    exact_mod_cast this
  have hole : ⌊pct / 100 * ((canvas - dim : ℤ) : ℚ)⌋ ≤ canvas - dim := by
    calc ⌊pct / 100 * ((canvas - dim : ℤ) : ℚ)⌋
        ≤ ⌊((canvas - dim : ℤ) : ℚ)⌋ := by
          apply Int.floor_le_floor
          apply mul_le_of_le_one_left hmq
          linarith
      _ = canvas - dim := Int.floor_intCast _
  unfold blur_offset
  dsimp only
  rw [if_pos hm, min_eq_left hole, max_eq_right hons]

/-- C7 (amended): for any source frame and any `x_percent, y_percent` in
`[0, 100]` the paste offsets are nonnegative; whenever the placement range is
positive the offset equals `⌊percent/100 * (canvas_dim - inset_dim)⌋` with the
clamp a no-op; and the inset stays inside the canvas in a given dimension
exactly under the proviso that its scaled size does not exceed the canvas in
that dimension — a guarantee that can fail (see the counterexample), because
the scaled inset itself may be wider or taller than the canvas. -/
theorem blur_inset_offsets_clamped (w h : ℕ) (ct cb xp yp : ℚ)
    (hx0 : 0 ≤ xp) (hx1 : xp ≤ 100) (hy0 : 0 ≤ yp) (hy1 : yp ≤ 100) :
    (0 ≤ (blur_preview_geometry w h ct cb xp yp).x_offset) ∧
    ((blur_preview_geometry w h ct cb xp yp).new_width ≤ 160 →
      (blur_preview_geometry w h ct cb xp yp).x_offset +
        (blur_preview_geometry w h ct cb xp yp).new_width ≤ 160) ∧
    (0 ≤ (blur_preview_geometry w h ct cb xp yp).y_offset) ∧
    ((blur_preview_geometry w h ct cb xp yp).new_height ≤ 285 →
      (blur_preview_geometry w h ct cb xp yp).y_offset +
        (blur_preview_geometry w h ct cb xp yp).new_height ≤ 285) ∧
    (0 < 160 - (blur_preview_geometry w h ct cb xp yp).new_width →
      (blur_preview_geometry w h ct cb xp yp).x_offset =
        ⌊xp / 100 * ((160 - (blur_preview_geometry w h ct cb xp yp).new_width : ℤ) : ℚ)⌋) ∧
    (0 < 285 - (blur_preview_geometry w h ct cb xp yp).new_height →
      (blur_preview_geometry w h ct cb xp yp).y_offset =
        ⌊yp / 100 * ((285 - (blur_preview_geometry w h ct cb xp yp).new_height : ℤ) : ℚ)⌋) := by
  refine ⟨blur_offset_nonneg _ _ _, ?_, blur_offset_nonneg _ _ _, ?_, ?_, ?_⟩
  · intro hle
    exact blur_offset_le xp 160 _ hle
  · intro hle
    exact blur_offset_le yp 285 _ hle
  · intro hlt
    exact blur_offset_no_clamp xp 160 _ hx0 hx1 hlt
  · intro hlt
    exact blur_offset_no_clamp yp 285 _ hy0 hy1 hlt

/-- Witness for C7: a portrait 900 × 1600 frame without cropping gives inset
112 × 199 (which fits in the 160 × 285 canvas) and, at
`x_percent = y_percent = 50`, offsets that keep the inset inside the canvas. -/
theorem blur_inset_offsets_clamped_witness :
    (blur_preview_geometry 900 1600 0 0 50 50).new_width = 112 ∧
    (0 : ℚ) ≤ 50 ∧ (50 : ℚ) ≤ 100 ∧
    (blur_preview_geometry 900 1600 0 0 50 50).x_offset +
      (blur_preview_geometry 900 1600 0 0 50 50).new_width ≤ 160 ∧
    (blur_preview_geometry 900 1600 0 0 50 50).y_offset +
      (blur_preview_geometry 900 1600 0 0 50 50).new_height ≤ 285 := by
  have h := blur_inset_offsets_clamped 900 1600 0 0 50 50
    (by norm_num) (by norm_num) (by norm_num) (by norm_num)
  have hdims : blur_new_dims 900 1600 0 0 = (112, 199) := by
    have hc : blur_crop_px 1600 0 = 0 := by
      unfold blur_crop_px
      norm_num
    unfold blur_new_dims
    rw [hc]
    norm_num
  have hw : (blur_preview_geometry 900 1600 0 0 50 50).new_width = 112 := by
    simp [blur_preview_geometry, hdims]
  have hh : (blur_preview_geometry 900 1600 0 0 50 50).new_height = 199 := by
    simp [blur_preview_geometry, hdims]
  refine ⟨hw, by norm_num, by norm_num, ?_, ?_⟩
  · exact h.2.1 (by rw [hw]; norm_num)
  · exact h.2.2.2.1 (by rw [hh]; norm_num)

/-- C7 counterexample: a 16:9 landscape source frame (1600 × 900, no crop)
yields inset width `int(171 * 16/9) = 304 > 160`: even with the offset clamped
to 0 the inset rectangle extends past the right edge of the 160-pixel-wide
canvas, so the inset is not fully contained for `x_percent = y_percent = 50`. -/
theorem blur_inset_overflow_counterexample :
    (blur_preview_geometry 1600 900 0 0 50 50).x_offset = 0 ∧
    (blur_preview_geometry 1600 900 0 0 50 50).new_width = 304 ∧
    ¬ ((blur_preview_geometry 1600 900 0 0 50 50).x_offset +
        (blur_preview_geometry 1600 900 0 0 50 50).new_width ≤ 160) := by
  have hdims : blur_new_dims 1600 900 0 0 = (304, 171) := by
    have hc : blur_crop_px 900 0 = 0 := by
      unfold blur_crop_px
      norm_num
    unfold blur_new_dims
    rw [hc]
    norm_num
  have hoff : blur_offset 50 160 304 = 0 := by
    unfold blur_offset
    norm_num
  refine ⟨?_, ?_, ?_⟩
  · simp [blur_preview_geometry, hdims, hoff]
  · simp [blur_preview_geometry, hdims]
  · simp [blur_preview_geometry, hdims, hoff]

/-! ## Batch loop and failure policy (video_processor.py lines 432-641) -/

/-- What processing one file can do: complete successfully (counted), complete
returning `False` (the GIF branches, not counted), or raise (caught by the
per-file `except`, not counted). -/
inductive JobOutcome : Type
  | succeeded
  | returnedFalse
  | raised
  deriving DecidableEq

def isSuccess : JobOutcome → Bool
  | .succeeded => true
  | _ => false

/-- Embeds the per-file loop of `process_videos_bulk` (video_processor.py
lines 536-589): iteration `i` processes file `i`; a per-file exception is
caught, logged, and the loop continues with the next file (lines 585-589);
`successful_files` is incremented only on success.  Returns the list of file
indices actually processed, in order, and the successful count. -/
def process_files_loop : List JobOutcome → Nat → List Nat × Nat
  | [], _ => ([], 0)
  | j :: rest, i =>
    let r := process_files_loop rest (i + 1)
    (i :: r.1, (if isSuccess j then 1 else 0) + r.2)

/-- The final status line (video_processor.py lines 629-631) reports
`successful_files/total_files`: processed indices, successful count, total. -/
def process_videos_bulk_report (jobs : List JobOutcome) : List Nat × Nat × Nat :=
  ((process_files_loop jobs 0).1, (process_files_loop jobs 0).2, jobs.length)

lemma process_files_loop_spec (jobs : List JobOutcome) :
    ∀ i, process_files_loop jobs i = (List.range' i jobs.length, jobs.countP isSuccess) := by
  induction jobs with
  | nil =>
    intro i
    simp [process_files_loop, List.countP_nil]
  | cons j rest ih =>
    intro i
    rw [process_files_loop, ih (i + 1)]
    simp [List.range'_succ, List.countP_cons]
    omega

/-- C8: for every batch and every pattern of per-file outcomes — including
files whose processing raises an exception — the loop visits every file of
the batch in order (the exception is caught and the loop continues with the
next file), and the batch-level result reports the count of successful files
out of the total number of files. -/
theorem batch_continues_and_reports_successful_total (jobs : List JobOutcome) :
    (process_videos_bulk_report jobs).1 = List.range jobs.length ∧
    (process_videos_bulk_report jobs).2.1 = jobs.countP isSuccess ∧
    (process_videos_bulk_report jobs).2.2 = jobs.length := by
  unfold process_videos_bulk_report
  rw [process_files_loop_spec jobs 0]
  exact ⟨(List.range_eq_range' jobs.length).symm ▸ rfl, rfl, rfl⟩

/-! ## Audio mode exclusivity in the GUI (gui_components.py lines 592-625 and
945-982) -/

inductive WidgetState : Type
  | normal
  | disabled
  deriving DecidableEq

/-- The GUI state touched by the audio-mode handlers: the two BooleanVars and
the widgets they enable/disable. -/
structure AudioUI : Type where
  audio_enabled : Bool
  dual_audio_enabled : Bool
  select_audio_folder_btn : WidgetState
  background_volume_scale : WidgetState
  original_volume_scale : WidgetState
  audio_folder_label_fg : String

/-- Embeds `on_audio_mode_change` (gui_components.py lines 945-964): both
branches force `dual_audio_enabled` to False and disable the original-volume
scale; the background-music widgets are enabled exactly when
`audio_enabled` is set. -/
def on_audio_mode_change (s : AudioUI) : AudioUI :=
  if s.audio_enabled then
    { s with select_audio_folder_btn := WidgetState.normal,
             background_volume_scale := WidgetState.normal,
             audio_folder_label_fg := "#2c3e50",
             dual_audio_enabled := false,
             original_volume_scale := WidgetState.disabled }
  else
    { s with select_audio_folder_btn := WidgetState.disabled,
             background_volume_scale := WidgetState.disabled,
             audio_folder_label_fg := "#7f8c8d",
             dual_audio_enabled := false,
             original_volume_scale := WidgetState.disabled }

/-- Embeds `on_dual_audio_change` (gui_components.py lines 966-982): enabling
dual audio forces `audio_enabled` to False and enables all mixing widgets;
disabling it disables the original-volume scale and, when background-only
mode is not selected, the background widgets as well. -/
def on_dual_audio_change (s : AudioUI) : AudioUI :=
  if s.dual_audio_enabled then
    { s with audio_enabled := false,
             select_audio_folder_btn := WidgetState.normal,
             original_volume_scale := WidgetState.normal,
             background_volume_scale := WidgetState.normal,
             audio_folder_label_fg := "#2c3e50" }
  else
    let s1 := { s with original_volume_scale := WidgetState.disabled }
    if s1.audio_enabled then s1
    else
      { s1 with background_volume_scale := WidgetState.disabled,
                select_audio_folder_btn := WidgetState.disabled,
                audio_folder_label_fg := "#7f8c8d" }

/-- The audio-mode change events of the GUI. -/
inductive AudioEvent : Type
  | selectOriginalOnly
  | selectBackgroundOnly
  | dualToggleOn
  | dualToggleOff
  deriving DecidableEq

/-- tkinter writes a widget's variable before invoking its command: the radio
buttons (gui_components.py lines 592-613) set `audio_enabled` to
False, or True and call `on_audio_mode_change`; the dual-audio checkbutton
(lines 616-625) toggles `dual_audio_enabled` and calls
`on_dual_audio_change`. -/
def applyAudioEvent (s : AudioUI) : AudioEvent → AudioUI
  | .selectOriginalOnly => on_audio_mode_change { s with audio_enabled := false }
  | .selectBackgroundOnly => on_audio_mode_change { s with audio_enabled := true }
  | .dualToggleOn => on_dual_audio_change { s with dual_audio_enabled := true }
  | .dualToggleOff => on_dual_audio_change { s with dual_audio_enabled := false }

/-- Each single audio event re-establishes the exclusivity invariant, whatever
state it is applied to. -/
lemma applyAudioEvent_exclusive (s : AudioUI) (e : AudioEvent) :
    (applyAudioEvent s e).audio_enabled = false ∨
    (applyAudioEvent s e).dual_audio_enabled = false := by
  cases e with
  | selectOriginalOnly =>
    simp [applyAudioEvent, on_audio_mode_change]
  | selectBackgroundOnly =>
    simp [applyAudioEvent, on_audio_mode_change]
  | dualToggleOn =>
    simp [applyAudioEvent, on_dual_audio_change]
  | dualToggleOff =>
    right
    simp only [applyAudioEvent, on_dual_audio_change]
    split_ifs <;> rfl

/-- C9: after any sequence of audio-mode change events (selecting
original-only, selecting background-only, toggling dual audio on or off) —
nonempty, or starting from a state already satisfying the invariant — at most
one of {background-music-only enabled, dual-audio enabled} is true: enabling
either one disables the other. -/
theorem audio_modes_mutually_exclusive (s : AudioUI) (evs : List AudioEvent)
    (h : evs ≠ [] ∨ s.audio_enabled = false ∨ s.dual_audio_enabled = false) :
    (evs.foldl applyAudioEvent s).audio_enabled = false ∨
    (evs.foldl applyAudioEvent s).dual_audio_enabled = false := by
  induction evs generalizing s with
  | nil =>
    rcases h with h | h
    · exact absurd rfl h
    · exact h
  | cons e rest ih =>
    rw [List.foldl_cons]
    exact ih (applyAudioEvent s e) (Or.inr (applyAudioEvent_exclusive s e))

/-- Witness for C9: selecting background-only and then enabling dual audio,
starting from the initial state (both off), leaves at most one flag set. -/
theorem audio_modes_mutually_exclusive_witness :
    (([AudioEvent.selectBackgroundOnly, AudioEvent.dualToggleOn].foldl applyAudioEvent
        ⟨false, false, WidgetState.disabled, WidgetState.disabled,
          WidgetState.disabled, "#7f8c8d"⟩).audio_enabled = false ∨
      ([AudioEvent.selectBackgroundOnly, AudioEvent.dualToggleOn].foldl applyAudioEvent
        ⟨false, false, WidgetState.disabled, WidgetState.disabled,
          WidgetState.disabled, "#7f8c8d"⟩).dual_audio_enabled = false) :=
  audio_modes_mutually_exclusive _ _ (Or.inl (by simp))

/-! ## Text overlay (video_processor.py lines 373-430)

The PIL drawing surface, fonts and emoji rasters are type parameters; the
external `smart_text_wrap` and `render_text_with_emoji_multiline`
(text_rendering module) are function parameters with exactly the argument
lists of their call sites — neither receives the x-position setting. -/

/-- The text settings dict built by the GUI:
`{enabled, x_position, y_position, size, font, color}`. -/
structure TextSettings : Type where
  enabled : Bool
  x_position : ℚ
  y_position : ℚ
  size : ℕ
  font : String
  color : String

/-- `get_font_file` (video_processor.py lines 25-39): font-name to
font-file mapping with `arial.ttf` as the default. -/
def font_mapping : List (String × String) :=
  [("Arial", "arial.ttf"), ("Times New Roman", "times.ttf"),
   ("Helvetica", "arial.ttf"), ("Courier New", "cour.ttf"),
   ("Verdana", "verdana.ttf"), ("Georgia", "georgia.ttf"),
   ("Comic Sans MS", "comic.ttf"), ("Impact", "impact.ttf"),
   ("Trebuchet MS", "trebuc.ttf"), ("Tahoma", "tahoma.ttf")]

def get_font_file (font_name : String) : String :=
  (font_mapping.lookup font_name).getD "arial.ttf"

/-- Python `int()` of a rational: truncation toward zero. -/
def pyInt (q : ℚ) : ℤ :=
  q.num / (q.den : ℤ)

/-- `os.path.splitext(s)[0]`: drop the extension after the last dot, unless
every character before that dot is itself a dot. -/
def splitext_root (s : String) : String :=
  let cs := s.data
  let dotIdxs := (List.range cs.length).filter (fun i => cs.getD i ' ' = '.')
  match dotIdxs.getLast? with
  | none => s
  | some i =>
    if (cs.take i).any (fun c => c ≠ '.') then String.mk (cs.take i) else s

/-- `.replace("_", " ")` on the extension-less name. -/
def underscores_to_spaces (s : String) : String :=
  String.mk (s.data.map (fun c => if c = '_' then ' ' else c))

/-- An item of a rendered line: an inline emoji raster or a run of text. -/
inductive RItem (ε : Type) : Type
  | emoji (e : ε)
  | text (s : String)

/-- One line as returned by `render_text_with_emoji_multiline`: its baseline
`y`, left start `x_start`, `emoji_size`, and items with their x offsets. -/
structure RLine (ε : Type) : Type where
  y : ℤ
  x_start : ℤ
  emoji_size : ℤ
  items : List (RItem ε × ℤ)

/-- A drawing operation performed on the frame: pasting an emoji raster or
drawing a text run in the chosen color. -/
inductive DrawOp (ε : Type) : Type
  | paste (e : ε) (x y : ℤ)
  | drawText (s : String) (x y : ℤ) (color : String)

/-- Embeds `add_text_overlay` (video_processor.py lines 373-430) as the
sequence of drawing operations applied to the frame.  `truetype` models
`ImageFont.truetype` (`none` = raising, handled by the `load_default`
fallback); `wrap` and `render` model `smart_text_wrap` and
`render_text_with_emoji_multiline` with the argument lists of their call
sites (lines 391 and 406-409).  `x_percent` is computed at line 394 and never
used afterwards; `base_y` (lines 402-403) is computed from `y_position` alone
and clamped. -/
def add_text_overlay {φ γ ε : Type}
    (truetype : String → ℕ → Option γ) (load_default : γ)
    (wrap : φ → String → γ → ℕ → ℕ → List String)
    (render : φ → List String → γ → ℕ → ℕ → ℤ → ℕ → ℕ → List (RLine ε))
    (frame : φ) (video_name : String) (ts : TextSettings) : φ × List (DrawOp ε) :=
  let font : γ := (truetype (get_font_file ts.font) ts.size).getD load_default
  let video_name_text : String := underscores_to_spaces (splitext_root video_name)
  let max_text_width : ℕ := 1080 - 80
  let lines : List String := wrap frame video_name_text font max_text_width 80
  let _x_percent : ℚ := ts.x_position / 100
  let y_percent : ℚ := ts.y_position / 100
  let line_height : ℕ := ts.size + 10
  let total_text_height : ℕ := lines.length * line_height
  let base_y : ℤ := pyInt (y_percent * ((1920 : ℚ) - (total_text_height : ℚ) - 40))
  let base_y : ℤ := max 20 (min base_y ((1920 : ℤ) - (total_text_height : ℤ) - 20))
  let rendered : List (RLine ε) := render frame lines font 1080 1920 base_y 80 10
  let ops : List (DrawOp ε) := rendered.flatMap (fun ld =>
    ld.items.map (fun it =>
      match it.1 with
      | RItem.emoji e =>
        DrawOp.paste e (ld.x_start + it.2) (ld.y + ((ts.size : ℤ) - ld.emoji_size).fdiv 2)
      | RItem.text str => DrawOp.drawText str (ld.x_start + it.2) ld.y ts.color))
  (frame, ops)

/-- Two text settings that agree on every field except `x_position`. -/
def differOnlyInX (t1 t2 : TextSettings) : Prop :=
  t1.enabled = t2.enabled ∧ t1.y_position = t2.y_position ∧
  t1.size = t2.size ∧ t1.font = t2.font ∧ t1.color = t2.color

/-- C10: the rendered text overlay is independent of `x_position`: for every
frame, video name, helper implementation and pair of text settings differing
only in `x_position`, `add_text_overlay` produces identical results — the
setting is read into `x_percent` and never used, each line starting from the
renderer-chosen left
position. -/
theorem add_text_overlay_independent_of_x {φ γ ε : Type}
    (truetype : String → ℕ → Option γ) (load_default : γ)
    (wrap : φ → String → γ → ℕ → ℕ → List String)
    (render : φ → List String → γ → ℕ → ℕ → ℤ → ℕ → ℕ → List (RLine ε))
    (frame : φ) (video_name : String) (t1 t2 : TextSettings)
    (h : differOnlyInX t1 t2) :
    add_text_overlay truetype load_default wrap render frame video_name t1 =
      add_text_overlay truetype load_default wrap render frame video_name t2 := by
  obtain ⟨he, hy, hs, hf, hc⟩ := h
  cases t1
  cases t2
  simp only at he hy hs hf hc
  subst he hy hs hf hc
  rfl

/-- Witness for C10: two settings equal except `x_position` 0 vs 100 yield the
same overlay result on a concrete instantiation. -/
theorem add_text_overlay_independent_of_x_witness :
    differOnlyInX ⟨true, 0, 50, 40, "Arial", "#000000"⟩
        ⟨true, 100, 50, 40, "Arial", "#000000"⟩ ∧
    add_text_overlay (fun _ _ => (none : Option ℕ)) 0
        (fun (_ : ℕ) _ _ _ _ => []) (fun _ _ _ _ _ _ _ _ => ([] : List (RLine ℕ)))
        (0 : ℕ) "video_1.mp4" ⟨true, 0, 50, 40, "Arial", "#000000"⟩ =
      add_text_overlay (fun _ _ => (none : Option ℕ)) 0
        (fun (_ : ℕ) _ _ _ _ => []) (fun _ _ _ _ _ _ _ _ => ([] : List (RLine ℕ)))
        (0 : ℕ) "video_1.mp4" ⟨true, 100, 50, 40, "Arial", "#000000"⟩ :=
  ⟨⟨rfl, rfl, rfl, rfl, rfl⟩,
    add_text_overlay_independent_of_x _ _ _ _ _ _ _ _ ⟨rfl, rfl, rfl, rfl, rfl⟩⟩

end Shorts
